import Mathlib

/-!
Shallow embedding of `src/pebble/src/modules/analog_layer.c` (the Blue Sky
analog watch-face layer) and proofs about its drawing algorithm and lifecycle
operations.

The C code is translated as follows: machine integers become `Int` with
explicit wrapping where a conversion to a narrower type occurs (`int8_t`
parameter of `bsky_rect_trim`, `int16_t` struct fields); C integer division
and remainder (truncation toward zero) become `Int.tdiv` / `Int.tmod`; the
sequence of Pebble graphics calls issued by the update procedure becomes a
list of commands, and a small interpreter resolves the graphics-context state
(fill color, stroke color, stroke width, antialiasing) into self-contained
drawing operations.
-/

/-- C99 signed integer division: truncates toward zero. -/
def cdiv (a b : Int) : Int := Int.tdiv a b

/-- C99 signed integer remainder, the companion of `cdiv` (sign of dividend). -/
def cmod (a b : Int) : Int := Int.tmod a b

/-- Wrap an integer to the value range of `int16_t` (two's complement). -/
def toInt16 (n : Int) : Int := (n + 32768) % 65536 - 32768

/-- Wrap an integer to the value range of `int8_t` (two's complement). -/
def toInt8 (n : Int) : Int := (n + 128) % 256 - 128

/-- Pebble SDK: `TRIG_MAX_ANGLE` = 0x10000, the fixed-point full turn. -/
def TRIG_MAX_ANGLE : Int := 65536

/-- Pebble `GPoint`: both coordinates are `int16_t`. -/
structure GPoint where
  x : Int
  y : Int
deriving DecidableEq

/-- Pebble `GSize`: both extents are `int16_t`. -/
structure GSize where
  w : Int
  h : Int
deriving DecidableEq

/-- Pebble `GRect`. -/
structure GRect where
  origin : GPoint
  size : GSize
deriving DecidableEq

/-- The Pebble color constants used by analog_layer.c. -/
inductive GColor where
  | Clear
  | Yellow
  | DarkCandyAppleRed
  | Cyan
  | ElectricBlue
  | Celeste
  | BlueMoon
deriving DecidableEq

/-- Pebble `GOvalScaleMode` (only `GOvalScaleModeFitCircle` is used). -/
inductive ScaleMode where
  | FitCircle
  | FillCircle
deriving DecidableEq

/-- A point produced by the host primitive `gpoint_from_polar`, kept symbolic:
the point on the ellipse inscribed in `rect` (under `mode` scaling) at fixed
point angle `angle`.  The claims only compare such points, so the defining
data is the faithful representation. -/
structure PolarPoint where
  rect : GRect
  mode : ScaleMode
  angle : Int
deriving DecidableEq

/-- Models the Pebble SDK's `gpoint_from_polar` symbolically (see
`PolarPoint`). -/
def gpoint_from_polar (rect : GRect) (mode : ScaleMode) (angle : Int) : PolarPoint :=
  { rect := rect, mode := mode, angle := angle }

/-- C `struct tm` (the fields of the host's calendar decomposition). -/
structure Tm where
  tm_sec : Int
  tm_min : Int
  tm_hour : Int
  tm_mday : Int
  tm_mon : Int
  tm_year : Int
  tm_wday : Int
  tm_yday : Int
  tm_isdst : Int
deriving DecidableEq

/-- A `struct tm` with every field zero. -/
def zeroTm : Tm :=
  { tm_sec := 0, tm_min := 0, tm_hour := 0, tm_mday := 0, tm_mon := 0
    tm_year := 0, tm_wday := 0, tm_yday := 0, tm_isdst := 0 }

/-- Struct `BSKY_AnalogData` from analog_layer.c: the custom state per analog layer.
`unix_time` is `time_t`, `sky_thickness` is `int16_t`. -/
structure BSKY_AnalogData where
  unix_time : Int
  wall_time : Tm
  sky_thickness : Int
deriving DecidableEq

/-- The zero-initialized `BSKY_AnalogData`. -/
def zeroAnalogData : BSKY_AnalogData :=
  { unix_time := 0, wall_time := zeroTm, sky_thickness := 0 }

/-- Function `bsky_rect_trim` from analog_layer.c: make a smaller rect by trimming the
edges of a larger one.  The `trim` parameter has C type `int8_t`, so the
argument is wrapped to 8 bits on entry; the result's fields are `int16_t`,
so each computed coordinate is wrapped to 16 bits. -/
def bsky_rect_trim (rect : GRect) (trim : Int) : GRect :=
  let t := toInt8 trim
  { origin := { x := toInt16 (rect.origin.x + t), y := toInt16 (rect.origin.y + t) }
    size := { w := toInt16 (rect.size.w - t * 2), h := toInt16 (rect.size.h - t * 2) } }

/-- One call into the Pebble graphics context, as issued by
`bsky_analog_layer_update`.  Corner radius and corner mask of `fillRect` are
carried as plain integers (the code passes 0, 0 = `GCornerNone`). -/
inductive GCommand where
  | setFillColor (c : GColor)
  | setStrokeColor (c : GColor)
  | setStrokeWidth (w : Int)
  | setAntialiased (b : Bool)
  | fillRect (r : GRect) (cornerRadius : Int) (cornerMask : Int)
  | fillRadial (r : GRect) (mode : ScaleMode) (insetThickness : Int)
      (angleStart : Int) (angleEnd : Int)
  | drawLine (p0 : PolarPoint) (p1 : PolarPoint)
  | fillCircle (center : PolarPoint) (radius : Int)
  | drawCircle (center : PolarPoint) (radius : Int)
deriving DecidableEq

/-- The color table `color_sky_fill` from analog_layer.c. -/
def color_sky_fill : List GColor := [GColor.Cyan, GColor.ElectricBlue, GColor.Celeste]

/-- Constant `color_sky_fill_len` from analog_layer.c. -/
def color_sky_fill_len : Nat := 3

/-- Constant `midnight_angle` from `bsky_analog_layer_update`: `TRIG_MAX_ANGLE / 2`. -/
def midnight_angle : Int := cdiv TRIG_MAX_ANGLE 2

/-- The `sky_thickness` computation from `bsky_analog_layer_update`:
`(w > h) ? h / 6 : w / 6` on the bounds. -/
def bsky_sky_thickness (sky_bounds : GRect) : Int :=
  if sky_bounds.size.w > sky_bounds.size.h then
    cdiv sky_bounds.size.h 6
  else
    cdiv sky_bounds.size.w 6

/-- The `hour_angle` computation from the 24-hour-marker loop of
`bsky_analog_layer_update`:
`(midnight_angle + hour * TRIG_MAX_ANGLE / 24) % TRIG_MAX_ANGLE`. -/
def bsky_hour_angle (hour : Int) : Int :=
  cmod (midnight_angle + cdiv (hour * TRIG_MAX_ANGLE) 24) TRIG_MAX_ANGLE

/-- The `sun_angle` computation from `bsky_analog_layer_update`:
`midnight_angle + TRIG_MAX_ANGLE * tm_hour / 24 + TRIG_MAX_ANGLE * tm_min / (24 * 60)`. -/
def bsky_sun_angle (wall_time : Tm) : Int :=
  midnight_angle + cdiv (TRIG_MAX_ANGLE * wall_time.tm_hour) 24
    + cdiv (TRIG_MAX_ANGLE * wall_time.tm_min) (24 * 60)

/-- Function `bsky_analog_layer_update` from analog_layer.c, as the sequence of
graphics calls it issues for the given layer data and layer bounds. -/
def bsky_analog_layer_update (data : BSKY_AnalogData) (bounds : GRect) :
    List GCommand :=
  let sky_bounds := bounds
  let sky_thickness := bsky_sky_thickness sky_bounds
  let sky_inset := bsky_rect_trim sky_bounds sky_thickness
  let sun_angle := bsky_sun_angle data.wall_time
  let sun_diameter := cdiv (sky_thickness * 3) 4
  let sun_orbit := bsky_rect_trim sky_bounds (cdiv sky_thickness 2)
  let sun_center := gpoint_from_polar sun_orbit ScaleMode.FitCircle sun_angle
  [GCommand.setFillColor GColor.Clear, GCommand.fillRect bounds 0 0]
  ++ (List.range color_sky_fill_len).flatMap (fun sky_fill =>
      [GCommand.setFillColor (color_sky_fill.getD sky_fill GColor.Clear),
       GCommand.fillRadial
         (bsky_rect_trim sky_bounds (cdiv (sky_thickness * (sky_fill : Int)) 3))
         ScaleMode.FitCircle (cdiv sky_thickness 3) 0 TRIG_MAX_ANGLE])
  ++ [GCommand.setStrokeColor GColor.BlueMoon, GCommand.setAntialiased true]
  ++ (List.range 24).flatMap (fun hour =>
      [GCommand.setStrokeWidth (if cmod (hour : Int) 3 ≠ 0 then 1 else 3),
       GCommand.drawLine
         (gpoint_from_polar sky_inset ScaleMode.FitCircle (bsky_hour_angle (hour : Int)))
         (gpoint_from_polar bounds ScaleMode.FitCircle (bsky_hour_angle (hour : Int)))])
  ++ [GCommand.setFillColor GColor.Yellow,
      GCommand.fillCircle sun_center (cdiv sun_diameter 2),
      GCommand.setStrokeColor GColor.DarkCandyAppleRed,
      GCommand.setStrokeWidth 2,
      GCommand.drawCircle sun_center (cdiv sun_diameter 2)]

/-- The mutable graphics-context state set by the `graphics_context_set_*`
calls. -/
structure GContextState where
  fillColor : GColor
  strokeColor : GColor
  strokeWidth : Int
  antialiased : Bool
deriving DecidableEq

/-- A drawing operation with the graphics-context state it was issued under
resolved into it. -/
inductive ROp where
  | fillRect (r : GRect) (cornerRadius : Int) (cornerMask : Int) (fill : GColor)
  | fillRadial (r : GRect) (mode : ScaleMode) (insetThickness : Int)
      (angleStart : Int) (angleEnd : Int) (fill : GColor)
  | drawLine (p0 : PolarPoint) (p1 : PolarPoint) (stroke : GColor)
      (width : Int) (antialiased : Bool)
  | fillCircle (center : PolarPoint) (radius : Int) (fill : GColor)
  | drawCircle (center : PolarPoint) (radius : Int) (stroke : GColor) (width : Int)
deriving DecidableEq

/-- Interpret a command list, threading the graphics-context state and
emitting resolved drawing operations. -/
def resolveFrom (s : GContextState) : List GCommand → List ROp
  | [] => []
  | GCommand.setFillColor c :: rest =>
      resolveFrom { s with fillColor := c } rest
  | GCommand.setStrokeColor c :: rest =>
      resolveFrom { s with strokeColor := c } rest
  | GCommand.setStrokeWidth w :: rest =>
      resolveFrom { s with strokeWidth := w } rest
  | GCommand.setAntialiased b :: rest =>
      resolveFrom { s with antialiased := b } rest
  | GCommand.fillRect r cr cm :: rest =>
      ROp.fillRect r cr cm s.fillColor :: resolveFrom s rest
  | GCommand.fillRadial r m t a0 a1 :: rest =>
      ROp.fillRadial r m t a0 a1 s.fillColor :: resolveFrom s rest
  | GCommand.drawLine p0 p1 :: rest =>
      ROp.drawLine p0 p1 s.strokeColor s.strokeWidth s.antialiased :: resolveFrom s rest
  | GCommand.fillCircle c r :: rest =>
      ROp.fillCircle c r s.fillColor :: resolveFrom s rest
  | GCommand.drawCircle c r :: rest =>
      ROp.drawCircle c r s.strokeColor s.strokeWidth :: resolveFrom s rest

/-- The graphics-context state at entry of the update procedure.  Every value
actually used by a drawing command is set by the procedure before that
command, so this choice is immaterial. -/
def initialGContext : GContextState :=
  { fillColor := GColor.Clear, strokeColor := GColor.Clear
    strokeWidth := 0, antialiased := false }

/-- The resolved drawing operations of one redraw. -/
def bsky_update_ops (data : BSKY_AnalogData) (bounds : GRect) : List ROp :=
  resolveFrom initialGContext (bsky_analog_layer_update data bounds)

/-- Recognizer for line-drawing operations. -/
def ROp.isDrawLine : ROp → Bool
  | ROp.drawLine _ _ _ _ _ => true
  | _ => false

/-- Recognizer for radial-fill operations. -/
def ROp.isFillRadial : ROp → Bool
  | ROp.fillRadial _ _ _ _ _ _ => true
  | _ => false

/-- Recognizer for circle-fill operations. -/
def ROp.isFillCircle : ROp → Bool
  | ROp.fillCircle _ _ _ => true
  | _ => false

/-- Recognizer for circle-outline operations. -/
def ROp.isDrawCircle : ROp → Bool
  | ROp.drawCircle _ _ _ _ => true
  | _ => false

/-- The rectangle of a radial-fill operation (dummy rectangle otherwise). -/
def ROp.radialRect : ROp → GRect
  | ROp.fillRadial r _ _ _ _ _ => r
  | _ => { origin := { x := 0, y := 0 }, size := { w := 0, h := 0 } }

/-- The drawable region abstraction of the host framework, as far as this
module uses it: a frame, the co-located custom state block, the registered
update procedure, and the dirty flag. -/
structure Layer where
  frame : GRect
  data : BSKY_AnalogData
  update_proc : Option (BSKY_AnalogData → GRect → List GCommand)
  dirty : Bool

/-- Modelled from the spec: the host's `layer_create_with_data` allocates a
drawable region sized to the frame with co-located state storage, and the
initial state fields are zero-valued until the first time-update call. -/
def layer_create_with_data (frame : GRect) : Layer :=
  { frame := frame, data := zeroAnalogData, update_proc := none, dirty := false }

/-- The host's `layer_set_update_proc`: registers the redraw callback. -/
def layer_set_update_proc (l : Layer) (p : BSKY_AnalogData → GRect → List GCommand) :
    Layer :=
  { l with update_proc := some p }

/-- The host's `layer_mark_dirty`: requests a future redraw. -/
def layer_mark_dirty (l : Layer) : Layer :=
  { l with dirty := true }

/-- Modelled from the spec: the bounds of a region created for a frame equal
that frame (the testable property on `get_region` of a fresh handle). -/
def layer_get_bounds (l : Layer) : GRect := l.frame

/-- Struct `BSKY_AnalogLayer` from analog_layer.c.  The C struct holds the
layer pointer and a conveniently typed `data` pointer aliasing into the
layer's own allocation; the alias is represented by reading `layer.data`. -/
structure BSKY_AnalogLayer where
  layer : Layer

/-- Memory-management events of `bsky_analog_layer_create`: the `malloc` /
`free` of the outer handle and the `layer_create_with_data` /
`layer_destroy` of the region. -/
inductive AllocEvent where
  | allocHandle
  | freeHandle
  | allocLayer
  | freeLayer
deriving DecidableEq

/-- True when every completed allocation in the event list has been released. -/
def balancedEvents (ev : List AllocEvent) : Bool :=
  (ev.count AllocEvent.allocHandle == ev.count AllocEvent.freeHandle)
    && (ev.count AllocEvent.allocLayer == ev.count AllocEvent.freeLayer)

/-- Function `bsky_analog_layer_create` from analog_layer.c.  The two fallible
allocations are made explicit: `malloc_ok` tells whether `malloc` of the
handle succeeds, `layer_ok` whether `layer_create_with_data` succeeds.
Returns the handle (`none` = NULL) together with the allocation events that
occurred, mirroring the C control flow: on `malloc` failure nothing was
allocated; on layer-creation failure the handle is freed and NULL returned;
on success the update procedure is registered on the region. -/
def bsky_analog_layer_create (frame : GRect) (malloc_ok : Bool) (layer_ok : Bool) :
    Option BSKY_AnalogLayer × List AllocEvent :=
  if malloc_ok then
    if layer_ok then
      let layer := layer_set_update_proc (layer_create_with_data frame)
        bsky_analog_layer_update
      (some { layer := layer }, [AllocEvent.allocHandle, AllocEvent.allocLayer])
    else
      (none, [AllocEvent.allocHandle, AllocEvent.freeHandle])
  else
    (none, [])

/-- Function `bsky_analog_layer_get_layer` from analog_layer.c. -/
def bsky_analog_layer_get_layer (analog_layer : BSKY_AnalogLayer) : Layer :=
  analog_layer.layer

/-- Function `bsky_analog_layer_set_time` from analog_layer.c.  The host's
`localtime` (timezone-aware calendar decomposition) is an explicit parameter:
the C code calls the ambient host clock subsystem. -/
def bsky_analog_layer_set_time (localtime : Int → Tm)
    (analog_layer : BSKY_AnalogLayer) (time : Int) : BSKY_AnalogLayer :=
  let data0 := analog_layer.layer.data
  let data1 := { data0 with unix_time := time, wall_time := localtime time }
  { layer := layer_mark_dirty { analog_layer.layer with data := data1 } }

/-- The spec's degree values in the code's fixed-point unit:
deg × TRIG_MAX_ANGLE / 360 (exact for multiples of 45, truncated otherwise). -/
def fixedOfDeg (deg : Int) : Int := cdiv (deg * TRIG_MAX_ANGLE) 360

/-- A wall-clock time with the given hour and minute and all other calendar
fields zero (test fixture). -/
def wallAt (hour minute : Int) : Tm :=
  { zeroTm with tm_hour := hour, tm_min := minute }

/-- The 180 × 180 frame of the spec's scenario. -/
def b180 : GRect := { origin := { x := 0, y := 0 }, size := { w := 180, h := 180 } }

/-- A 12 × 12 region (test fixture). -/
def b12 : GRect := { origin := { x := 0, y := 0 }, size := { w := 12, h := 12 } }

/-- A 763 × 763 region (test fixture). -/
def b763 : GRect := { origin := { x := 0, y := 0 }, size := { w := 763, h := 763 } }

/-- A 768 × 768 region (test fixture). -/
def b768 : GRect := { origin := { x := 0, y := 0 }, size := { w := 768, h := 768 } }

/-- The handle produced by a fully successful creation on the 180 × 180 frame
(test fixture). -/
def freshHandle180 : BSKY_AnalogLayer :=
  { layer :=
    { frame := b180, data := zeroAnalogData,
      update_proc := some bsky_analog_layer_update, dirty := false } }

/-- Truncating division agrees with Euclidean division on nonnegative data. -/
theorem cdiv_eq_div {a b : Int} (ha : 0 ≤ a) (hb : 0 ≤ b) : cdiv a b = a / b :=
  Int.tdiv_eq_ediv ha hb

/-- Truncating remainder agrees with Euclidean remainder on nonnegative data. -/
theorem cmod_eq_mod {a b : Int} (ha : 0 ≤ a) (hb : 0 ≤ b) : cmod a b = a % b :=
  Int.tmod_eq_emod ha hb

/-- The midnight reference angle is half a full turn. -/
theorem midnight_angle_eq : midnight_angle = 32768 := rfl

/-- C1 (counterexample).  At hour 18, minute 0 the computed sun angle is
81920 fixed-point units (= 450 degrees), not the 90-degree value 16384: the
code never reduces the sun angle modulo a full turn, so the claimed exact
equality with 90 degrees fails. -/
theorem sun_angle_hour18_not_90deg :
    bsky_sun_angle (wallAt 18 0) = 81920
    ∧ fixedOfDeg 90 = 16384
    ∧ bsky_sun_angle (wallAt 18 0) ≠ fixedOfDeg 90 := by
  decide

/-- C1 (amended).  The sun angle is computed as half a full turn plus
full_turn × hour / 24 plus full_turn × minute / 1440 under truncating
integer division; its anchor values are 180 degrees at 00:00, 270 degrees at
06:00, 360 degrees at 12:00, one full turn plus 90 degrees at 18:00 (equal to
90 degrees only after reduction modulo a full turn), and at 00:30 it is 180
degrees plus 1365 units, the truncation of 7.5 degrees (which is not exactly
representable in this unit). -/
theorem sun_angle_formula_and_anchors :
    (∀ tm : Tm, bsky_sun_angle tm =
      32768 + cdiv (65536 * tm.tm_hour) 24 + cdiv (65536 * tm.tm_min) 1440)
    ∧ bsky_sun_angle (wallAt 0 0) = fixedOfDeg 180
    ∧ bsky_sun_angle (wallAt 6 0) = fixedOfDeg 270
    ∧ bsky_sun_angle (wallAt 12 0) = fixedOfDeg 360
    ∧ bsky_sun_angle (wallAt 18 0) = TRIG_MAX_ANGLE + fixedOfDeg 90
    ∧ cmod (bsky_sun_angle (wallAt 18 0)) TRIG_MAX_ANGLE = fixedOfDeg 90
    ∧ bsky_sun_angle (wallAt 0 30) = fixedOfDeg 180 + cdiv (TRIG_MAX_ANGLE * 75) 3600
    ∧ bsky_sun_angle (wallAt 0 30) = 34133 :=
  ⟨fun _ => rfl, by decide, by decide, by decide, by decide, by decide, by decide,
    by decide⟩

/-- C2 (counterexample).  The 24 tick angles are not exactly evenly spaced in
the fixed-point unit: the gap between ticks 0 and 1 is 2730 units while the
gap between ticks 1 and 2 is 2731 units (full_turn / 24 is not an integer). -/
theorem hour_tick_gaps_uneven :
    bsky_hour_angle 1 - bsky_hour_angle 0 = 2730
    ∧ bsky_hour_angle 2 - bsky_hour_angle 1 = 2731
    ∧ bsky_hour_angle 1 - bsky_hour_angle 0 ≠ bsky_hour_angle 2 - bsky_hour_angle 1 := by
  decide

/-- C2 (amended).  For every state and region the redraw issues exactly 24
line strokes, one per hour index h in 0..23, from the point on the ellipse of
the bounds inset by sky_thickness to the point on the ellipse of the bounds,
both at angle hour_angle h, stroked in the sky stroke color, antialiased,
with width 3 when h mod 3 = 0 and 1 otherwise; hour_angle h is the
fixed-point value of (180 + 15 h) degrees truncated to the unit, reduced
modulo one full turn, and consecutive ticks are evenly spaced only up to
truncation: each gap is 2730 or 2731 units. -/
theorem hour_tick_lines (d : BSKY_AnalogData) (bounds : GRect) :
    ((bsky_update_ops d bounds).filter ROp.isDrawLine =
      (List.range 24).map (fun h => ROp.drawLine
        (gpoint_from_polar (bsky_rect_trim bounds (bsky_sky_thickness bounds))
          ScaleMode.FitCircle (bsky_hour_angle (h : Int)))
        (gpoint_from_polar bounds ScaleMode.FitCircle (bsky_hour_angle (h : Int)))
        GColor.BlueMoon (if h % 3 = 0 then 3 else 1) true))
    ∧ (∀ h : Int, 0 ≤ h → h < 24 →
        bsky_hour_angle h = cmod (fixedOfDeg (180 + 15 * h)) TRIG_MAX_ANGLE
        ∧ ((bsky_hour_angle (h + 1) - bsky_hour_angle h) % 65536 = 2730
            ∨ (bsky_hour_angle (h + 1) - bsky_hour_angle h) % 65536 = 2731)) := by
  refine ⟨rfl, fun h h0 h24 => ?_⟩
  interval_cases h <;> exact ⟨by decide, by decide⟩

/-- C2 (witness): the amended tick facts at hour index 5. -/
theorem hour_tick_lines_witness :
    bsky_hour_angle 5 = cmod (fixedOfDeg (180 + 15 * 5)) TRIG_MAX_ANGLE
    ∧ ((bsky_hour_angle (5 + 1) - bsky_hour_angle 5) % 65536 = 2730
        ∨ (bsky_hour_angle (5 + 1) - bsky_hour_angle 5) % 65536 = 2731) :=
  (hour_tick_lines zeroAnalogData b180).2 5 (by decide) (by decide)

/-- C3 (counterexample).  On a 12 × 12 region (sky_thickness = 2) the first
and second sky bands are drawn in the same rectangle, so the bands' visible
radii are not strictly decreasing for every region as claimed. -/
theorem sky_bands_coincide_small_region :
    ((bsky_update_ops zeroAnalogData b12).filter ROp.isFillRadial).map ROp.radialRect =
      [b12, b12, { origin := { x := 1, y := 1 }, size := { w := 10, h := 10 } }] := by
  decide

/-- C3 (amended).  For every state and region the redraw issues exactly 3
radial fills: band i (i = 0, 1, 2, outermost to innermost) is an annulus of
inset thickness sky_thickness / 3 over the full 0..full_turn sweep (not a
full disc) in the rectangle inset by sky_thickness × i / 3 from the bounds,
colored outer-to-inner cyan, electric blue, celeste, where sky_thickness is
the shorter dimension over 6; the three computed insets are strictly
increasing (so the bands' visible radii strictly decrease) whenever
sky_thickness is at least 3, i.e. the shorter dimension is at least 18. -/
theorem sky_band_ops (d : BSKY_AnalogData) (bounds : GRect) :
    bsky_sky_thickness bounds = cdiv (min bounds.size.w bounds.size.h) 6
    ∧ ((bsky_update_ops d bounds).filter ROp.isFillRadial =
      [ROp.fillRadial (bsky_rect_trim bounds (cdiv (bsky_sky_thickness bounds * 0) 3))
          ScaleMode.FitCircle (cdiv (bsky_sky_thickness bounds) 3) 0 TRIG_MAX_ANGLE
          GColor.Cyan,
        ROp.fillRadial (bsky_rect_trim bounds (cdiv (bsky_sky_thickness bounds * 1) 3))
          ScaleMode.FitCircle (cdiv (bsky_sky_thickness bounds) 3) 0 TRIG_MAX_ANGLE
          GColor.ElectricBlue,
        ROp.fillRadial (bsky_rect_trim bounds (cdiv (bsky_sky_thickness bounds * 2) 3))
          ScaleMode.FitCircle (cdiv (bsky_sky_thickness bounds) 3) 0 TRIG_MAX_ANGLE
          GColor.Celeste])
    ∧ (3 ≤ bsky_sky_thickness bounds →
        cdiv (bsky_sky_thickness bounds * 0) 3 < cdiv (bsky_sky_thickness bounds * 1) 3
        ∧ cdiv (bsky_sky_thickness bounds * 1) 3 < cdiv (bsky_sky_thickness bounds * 2) 3) := by
  refine ⟨?_, rfl, fun hst => ?_⟩
  · unfold bsky_sky_thickness
    split <;> congr 1 <;> omega
  · set s := bsky_sky_thickness bounds with hs
    rw [cdiv_eq_div (by omega) (by norm_num), cdiv_eq_div (by omega) (by norm_num),
      cdiv_eq_div (by omega) (by norm_num)]
    omega

/-- C3 (witness): on the 180 × 180 frame sky_thickness is 30 and the band
insets 0, 10, 20 strictly increase. -/
theorem sky_band_ops_witness :
    cdiv (bsky_sky_thickness b180 * 0) 3 < cdiv (bsky_sky_thickness b180 * 1) 3
    ∧ cdiv (bsky_sky_thickness b180 * 1) 3 < cdiv (bsky_sky_thickness b180 * 2) 3 :=
  (sky_band_ops zeroAnalogData b180).2.2 (by decide)

/-- C4 (confirmed).  For every state and region the redraw issues exactly one
circle fill and one circle outline: both at the point on the ellipse of the
bounds inset by sky_thickness / 2 at the sun angle, with radius half of
sun_diameter = sky_thickness × 3 / 4, the fill in yellow and the outline in
dark candy apple red with stroke width 2; on the 180 × 180 frame
sky_thickness is 30, the orbit rectangle is (15, 15, 150, 150) and the sun
diameter is 22, and at 12:00 the sun angle is one full turn. -/
theorem sun_disc_ops (d : BSKY_AnalogData) (bounds : GRect) :
    ((bsky_update_ops d bounds).filter ROp.isFillCircle =
      [ROp.fillCircle
        (gpoint_from_polar (bsky_rect_trim bounds (cdiv (bsky_sky_thickness bounds) 2))
          ScaleMode.FitCircle (bsky_sun_angle d.wall_time))
        (cdiv (cdiv (bsky_sky_thickness bounds * 3) 4) 2) GColor.Yellow])
    ∧ ((bsky_update_ops d bounds).filter ROp.isDrawCircle =
      [ROp.drawCircle
        (gpoint_from_polar (bsky_rect_trim bounds (cdiv (bsky_sky_thickness bounds) 2))
          ScaleMode.FitCircle (bsky_sun_angle d.wall_time))
        (cdiv (cdiv (bsky_sky_thickness bounds * 3) 4) 2) GColor.DarkCandyAppleRed 2])
    ∧ bsky_sky_thickness b180 = 30
    ∧ bsky_rect_trim b180 (cdiv (bsky_sky_thickness b180) 2) =
        { origin := { x := 15, y := 15 }, size := { w := 150, h := 150 } }
    ∧ cdiv (bsky_sky_thickness b180 * 3) 4 = 22
    ∧ bsky_sun_angle (wallAt 12 0) = TRIG_MAX_ANGLE :=
  ⟨rfl, rfl, by decide, by decide, by decide, by decide⟩

/-- C5 (counterexample).  At 12:00 on the 180 × 180 frame the angle passed to
the point-on-ellipse computation for the sun is 65536, one full turn, which
does not lie in the interval from 0 inclusive to one full turn exclusive:
the sun angle is never reduced modulo a full turn. -/
theorem sun_angle_not_reduced_mod_full_turn :
    ROp.fillCircle
        (gpoint_from_polar
          { origin := { x := 15, y := 15 }, size := { w := 150, h := 150 } }
          ScaleMode.FitCircle 65536) 11 GColor.Yellow
      ∈ bsky_update_ops { zeroAnalogData with wall_time := wallAt 12 0 } b180
    ∧ ¬ ((0 : Int) ≤ 65536 ∧ (65536 : Int) < TRIG_MAX_ANGLE) := by
  decide

/-- C5 (amended).  For hours 0..23 and minutes 0..59: each of the 24 tick
angles is reduced modulo a full turn and lies in the interval from 0
inclusive to one full turn exclusive, while the sun angle is not reduced: it
lies between half a turn inclusive and one and a half turns exclusive, and it
is below one full turn exactly when the hour is below 12. -/
theorem polar_angle_ranges (h m : Int) (h0 : 0 ≤ h) (h24 : h < 24)
    (m0 : 0 ≤ m) (m60 : m < 60) :
    (0 ≤ bsky_hour_angle h ∧ bsky_hour_angle h < TRIG_MAX_ANGLE)
    ∧ (midnight_angle ≤ bsky_sun_angle (wallAt h m)
        ∧ bsky_sun_angle (wallAt h m) < 98304)
    ∧ (bsky_sun_angle (wallAt h m) < TRIG_MAX_ANGLE ↔ h < 12) := by
  refine ⟨?_, ?_⟩
  · unfold bsky_hour_angle
    rw [midnight_angle_eq, show TRIG_MAX_ANGLE = 65536 from rfl,
      cdiv_eq_div (by positivity) (by norm_num),
      cmod_eq_mod (by positivity) (by norm_num)]
    omega
  · unfold bsky_sun_angle
    rw [midnight_angle_eq, show TRIG_MAX_ANGLE = 65536 from rfl]
    simp only [wallAt, zeroTm]
    rw [cdiv_eq_div (by positivity) (by norm_num),
      cdiv_eq_div (by positivity) (by norm_num)]
    omega

/-- C5 (witness): the amended angle ranges at hour 18, minute 30. -/
theorem polar_angle_ranges_witness :
    ((0 : Int) ≤ bsky_hour_angle 18 ∧ bsky_hour_angle 18 < TRIG_MAX_ANGLE)
    ∧ (midnight_angle ≤ bsky_sun_angle (wallAt 18 30)
        ∧ bsky_sun_angle (wallAt 18 30) < 98304)
    ∧ (bsky_sun_angle (wallAt 18 30) < TRIG_MAX_ANGLE ↔ (18 : Int) < 12) :=
  polar_angle_ranges 18 30 (by decide) (by decide) (by decide) (by decide)

/-- C6 (confirmed).  Creation fails exactly when one of its two allocations
fails; on every failure all completed allocations have been released (no
partial or leaked state) and a null handle is returned; on success the handle
is non-null, its region has the redraw callback registered and is sized to
the requested frame. -/
theorem create_alloc_safety (frame : GRect) (malloc_ok layer_ok : Bool) :
    ((bsky_analog_layer_create frame malloc_ok layer_ok).1 = none ↔
      (malloc_ok = false ∨ layer_ok = false))
    ∧ ((bsky_analog_layer_create frame malloc_ok layer_ok).1 = none →
        balancedEvents (bsky_analog_layer_create frame malloc_ok layer_ok).2 = true)
    ∧ (∀ al, (bsky_analog_layer_create frame malloc_ok layer_ok).1 = some al →
        al.layer.update_proc = some bsky_analog_layer_update
        ∧ al.layer.frame = frame) := by
  refine ⟨?_, ?_, ?_⟩ <;> cases malloc_ok <;> cases layer_ok
  · simp [bsky_analog_layer_create]
  · simp [bsky_analog_layer_create]
  · simp [bsky_analog_layer_create]
  · simp [bsky_analog_layer_create]
  · exact fun _ => rfl
  · exact fun _ => rfl
  · exact fun _ => rfl
  · intro hnone
    simp [bsky_analog_layer_create] at hnone
  · intro al hal
    simp [bsky_analog_layer_create] at hal
  · intro al hal
    simp [bsky_analog_layer_create] at hal
  · intro al hal
    simp [bsky_analog_layer_create] at hal
  · intro al hal
    simp [bsky_analog_layer_create] at hal
    simp [← hal, layer_set_update_proc, layer_create_with_data]

/-- C6 (witness): with the handle allocation succeeding and the region
allocation failing, the returned handle is null and the allocation events are
balanced; with both succeeding, the returned handle carries the registered
redraw callback and the requested frame. -/
theorem create_alloc_safety_witness :
    balancedEvents (bsky_analog_layer_create b180 true false).2 = true
    ∧ freshHandle180.layer.update_proc = some bsky_analog_layer_update
    ∧ freshHandle180.layer.frame = b180 :=
  ⟨(create_alloc_safety b180 true false).2.1 rfl,
    (create_alloc_safety b180 true true).2.2 freshHandle180 rfl⟩

/-- C7 (confirmed).  set_time stores the timestamp in the state's
absolute-time field, stores the host's timezone-aware calendar decomposition
of it in the local-time field, and marks the region dirty; a subsequent
redraw is exactly the redraw of a state whose wall time is that
decomposition, and its sun angle reads the decomposition's hour and minute. -/
theorem set_time_stores_and_dirties (localtime : Int → Tm)
    (al : BSKY_AnalogLayer) (t : Int) :
    (bsky_analog_layer_set_time localtime al t).layer.data.unix_time = t
    ∧ (bsky_analog_layer_set_time localtime al t).layer.data.wall_time = localtime t
    ∧ (bsky_analog_layer_set_time localtime al t).layer.dirty = true
    ∧ (∀ bounds, bsky_update_ops
        (bsky_analog_layer_set_time localtime al t).layer.data bounds =
        bsky_update_ops
          { unix_time := t, wall_time := localtime t
            sky_thickness := al.layer.data.sky_thickness } bounds)
    ∧ bsky_sun_angle (bsky_analog_layer_set_time localtime al t).layer.data.wall_time
        = midnight_angle + cdiv (TRIG_MAX_ANGLE * (localtime t).tm_hour) 24
            + cdiv (TRIG_MAX_ANGLE * (localtime t).tm_min) 1440 :=
  ⟨rfl, rfl, rfl, fun _ => rfl, rfl⟩

/-- C8 (confirmed).  Immediately after a successful create and before any
set_time call, the created layer's state block is the zero-initialized one:
epoch absolute time, zeroed calendar fields, zero sky thickness. -/
theorem create_initial_state_zero (frame : GRect) :
    Option.map (fun al => al.layer.data) (bsky_analog_layer_create frame true true).1
      = some zeroAnalogData
    ∧ zeroAnalogData.unix_time = 0
    ∧ zeroAnalogData.wall_time = zeroTm
    ∧ zeroAnalogData.sky_thickness = 0
    ∧ zeroTm.tm_hour = 0 ∧ zeroTm.tm_min = 0 :=
  ⟨rfl, rfl, rfl, rfl, rfl, rfl⟩

/-- C9 (confirmed).  The stored sky_thickness field does not influence
rendering: two states that agree on absolute and wall time (hence differ at
most in sky_thickness) produce the identical command trace and identical
resolved drawing operations, and set_time leaves the field unchanged. -/
theorem sky_thickness_field_unused (d d2 : BSKY_AnalogData) (bounds : GRect)
    (h1 : d.unix_time = d2.unix_time) (h2 : d.wall_time = d2.wall_time) :
    bsky_analog_layer_update d bounds = bsky_analog_layer_update d2 bounds
    ∧ bsky_update_ops d bounds = bsky_update_ops d2 bounds
    ∧ (∀ (localtime : Int → Tm) (al : BSKY_AnalogLayer) (t : Int),
        (bsky_analog_layer_set_time localtime al t).layer.data.sky_thickness
          = al.layer.data.sky_thickness) := by
  have hu : bsky_analog_layer_update d bounds = bsky_analog_layer_update d2 bounds := by
    unfold bsky_analog_layer_update
    rw [h2]
  exact ⟨hu, by unfold bsky_update_ops; rw [hu], fun _ _ _ => rfl⟩

/-- C9 (witness): the zero state and the zero state with sky_thickness 999
produce the identical command trace on the 180 × 180 frame. -/
theorem sky_thickness_field_unused_witness :
    bsky_analog_layer_update zeroAnalogData b180 =
      bsky_analog_layer_update { zeroAnalogData with sky_thickness := 999 } b180 :=
  (sky_thickness_field_unused zeroAnalogData
    { zeroAnalogData with sky_thickness := 999 } b180 rfl rfl).1

/-- C10 (counterexample).  A 763 × 763 region has shorter dimension greater
than 762, yet every inset the update procedure passes (sky_thickness = 127
itself, the band insets 0, 42, 84, and the half thickness 63) still fits
int8_t and is applied exactly: the claim that regions larger than 762 get a
truncated inset is false; truncation starts at sky_thickness 128, i.e.
shorter dimension 768. -/
theorem rect_trim_exact_beyond_claimed_threshold :
    bsky_sky_thickness b763 = 127
    ∧ bsky_rect_trim b763 (bsky_sky_thickness b763) =
        { origin := { x := 127, y := 127 }, size := { w := 509, h := 509 } }
    ∧ bsky_rect_trim b763 (cdiv (bsky_sky_thickness b763 * 1) 3) =
        { origin := { x := 42, y := 42 }, size := { w := 679, h := 679 } }
    ∧ bsky_rect_trim b763 (cdiv (bsky_sky_thickness b763 * 2) 3) =
        { origin := { x := 84, y := 84 }, size := { w := 595, h := 595 } }
    ∧ bsky_rect_trim b763 (cdiv (bsky_sky_thickness b763) 2) =
        { origin := { x := 63, y := 63 }, size := { w := 637, h := 637 } } := by
  decide

/-- C10 (amended).  For every region with origin in 0..32000 and sizes in
0..32767 whose shorter dimension is at most 767 (so sky_thickness is at most
127), every inset between 0 and sky_thickness fits int8_t and the trimmed
rectangle is the bounds shrunk by exactly the requested inset on each side;
at shorter dimension 768 the inset sky_thickness = 128 is truncated to -128
and the applied inset differs from the requested one. -/
theorem rect_trim_exact_small_regions (rect : GRect)
    (hx0 : 0 ≤ rect.origin.x) (hx1 : rect.origin.x ≤ 32000)
    (hy0 : 0 ≤ rect.origin.y) (hy1 : rect.origin.y ≤ 32000)
    (hw0 : 0 ≤ rect.size.w) (hw1 : rect.size.w ≤ 32767)
    (hh0 : 0 ≤ rect.size.h) (hh1 : rect.size.h ≤ 32767)
    (hmin : rect.size.w ≤ 767 ∨ rect.size.h ≤ 767) :
    (∀ t, 0 ≤ t → t ≤ bsky_sky_thickness rect →
      bsky_rect_trim rect t =
        { origin := { x := rect.origin.x + t, y := rect.origin.y + t }
          size := { w := rect.size.w - 2 * t, h := rect.size.h - 2 * t } })
    ∧ bsky_sky_thickness b768 = 128
    ∧ bsky_rect_trim b768 (bsky_sky_thickness b768) ≠
        { origin := { x := 128, y := 128 }, size := { w := 512, h := 512 } }
    ∧ bsky_rect_trim b768 (bsky_sky_thickness b768) =
        { origin := { x := -128, y := -128 }, size := { w := 1024, h := 1024 } } := by
  have hst : bsky_sky_thickness rect ≤ 127 := by
    unfold bsky_sky_thickness
    rcases hmin with hm | hm <;> split <;>
      rw [cdiv_eq_div (by omega) (by norm_num)] <;> omega
  refine ⟨fun t ht0 ht1 => ?_, by decide, by decide, by decide⟩
  have ht127 : t ≤ 127 := le_trans ht1 hst
  unfold bsky_rect_trim toInt8 toInt16
  have h8 : (t + 128) % 256 - 128 = t := by omega
  rw [h8]
  simp only [GRect.mk.injEq, GPoint.mk.injEq, GSize.mk.injEq]
  refine ⟨⟨?_, ?_⟩, ?_, ?_⟩ <;> omega

/-- C10 (witness): on the 180 × 180 frame the full sky_thickness inset 30 is
applied exactly. -/
theorem rect_trim_exact_small_regions_witness :
    bsky_rect_trim b180 30 =
      { origin := { x := b180.origin.x + 30, y := b180.origin.y + 30 }
        size := { w := b180.size.w - 2 * 30, h := b180.size.h - 2 * 30 } } :=
  (rect_trim_exact_small_regions b180 (by decide) (by decide) (by decide) (by decide)
    (by decide) (by decide) (by decide) (by decide) (by decide)).1
    30 (by decide) (by decide)
